import Mathlib

/-!
Shallow embedding of the rabwah-factory-backend authentication and task
lifecycle core: the verifyToken middleware (src/middleware/auth.js), the
requireRole gate (src/middleware/requireRole.js), and the task routes
(src/routes/task.routes.js), together with the enum constraints of the
Task mongoose schema (src/models/Task.js).
-/

namespace Rabwah

/-- Modelled from the spec: src/constants/roles.js is not present in the
sources; the spec defines Role as the closed lowercase enum
{admin, manager, staff, customer}.  These are the ROLES constants. -/
def ROLES_ADMIN : String := "admin"

/-- Modelled from the spec: the ROLES.MANAGER constant. -/
def ROLES_MANAGER : String := "manager"

/-- Modelled from the spec: the ROLES.STAFF constant. -/
def ROLES_STAFF : String := "staff"

/-- Modelled from the spec: the ROLES.CUSTOMER constant. -/
def ROLES_CUSTOMER : String := "customer"

/-- JavaScript String.prototype.toLowerCase, mapped character-wise (the
role strings are ASCII).  Defined by list map so that it evaluates by
kernel reduction. -/
def jsLower (s : String) : String := ⟨s.data.map Char.toLower⟩

/-- JavaScript String.prototype.split with a one-character separator,
character-list recursion: every occurrence of the separator cuts, and a
trailing separator yields a trailing empty piece, exactly as in JS. -/
def splitChars (sep : Char) : List Char → List (List Char)
  | [] => [[]]
  | c :: cs =>
    match splitChars sep cs with
    | [] => [[]]
    | r :: rs => if c = sep then [] :: r :: rs else (c :: r) :: rs

/-- JavaScript s.split(sep) for a one-character separator, as strings. -/
def jsSplit (sep : Char) (s : String) : List String :=
  (splitChars sep s.data).map String.mk

/-- JavaScript s.startsWith(p): p is a literal case-sensitive leading
substring of s. -/
def jsStartsWith (s p : String) : Bool := p.data.isPrefixOf s.data

/-- The identity claim set decoded from a bearer token and attached to the
request as req.user: id, role, email. -/
structure Claims where
  id : String
  role : String
  email : String
deriving DecidableEq, Repr

/-- Outcome of the verifyToken middleware (src/middleware/auth.js):
401 missing token, 401 invalid token, or success with the decoded claims
attached to the request. -/
inductive AuthOutcome where
  | missing
  | invalid
  | ok (claims : Claims)
deriving DecidableEq, Repr

/-- verifyToken from src/middleware/auth.js.  The jsonwebtoken library is
external; it is abstracted as jwtVerify, which returns the decoded claims
or none when verification throws (malformed token, bad signature, expiry).
The middleware extracts the token as authHeader.split(" ")[1] when the
header starts with the exact string "Bearer ", rejects a falsy token with
the missing-token response, and on success lowercases a truthy role claim
before attaching the claims. -/
def verifyToken (jwtVerify : String → Option Claims) (authHeader : String) :
    AuthOutcome :=
  let token : Option String :=
    if jsStartsWith authHeader "Bearer " then (jsSplit ' ' authHeader)[1]?
    else none
  match token with
  | none => .missing
  | some t =>
    if t = "" then .missing
    else
      match jwtVerify t with
      | none => .invalid
      | some decoded =>
        .ok { decoded with
              role := if decoded.role = "" then decoded.role
                      else jsLower decoded.role }

/-- Outcome of the requireRole middleware (src/middleware/requireRole.js):
401 no user context, 403 permission denied, or pass-through to the route. -/
inductive GateOutcome where
  | noContext
  | forbidden
  | ok
deriving DecidableEq, Repr

/-- requireRole from src/middleware/requireRole.js, with the allowed roles
already collected into a list of strings (the way every call site except
the admin stats route invokes it).  The gate requires req.user with a
truthy role, lowercases the user role and every allowed role, and checks
membership. -/
def requireRole (allowedRoles : List String) (user : Option Claims) :
    GateOutcome :=
  match user with
  | none => .noContext
  | some u =>
    if u.role = "" then .noContext
    else
      let userRole := jsLower u.role
      let normalizedAllowed := allowedRoles.map jsLower
      if normalizedAllowed.contains userRole then .ok else .forbidden

/-- A JavaScript argument to the variadic requireRole(...allowedRoles):
either a string or an array of strings (the admin stats route passes
an array). -/
inductive JsArg where
  | str (s : String)
  | arr (l : List String)
deriving DecidableEq, Repr

/-- Outcome of the variadic requireRole when arguments are modelled as
JavaScript values: calling r.toLowerCase() on an array argument throws a
TypeError inside allowedRoles.map, which Express surfaces as a 500. -/
inductive JsGateOutcome where
  | noContext
  | typeError
  | forbidden
  | ok
deriving DecidableEq, Repr

/-- r.toLowerCase() on a JavaScript value: succeeds on a string, throws
(none) on an array, which has no toLowerCase method. -/
def jsToLower : JsArg → Option String
  | .str s => some (jsLower s)
  | .arr _ => none

/-- requireRole from src/middleware/requireRole.js with its rest parameter
kept as a list of JavaScript values, so that the call
requireRole(["admin", "manager"]) from the admin stats route
(src/routes/admin.routes.js) can be modelled: its single array argument
becomes the one-element list [JsArg.arr [..]], and the map over
allowedRoles throws on it. -/
def requireRoleJs (allowedRoles : List JsArg) (user : Option Claims) :
    JsGateOutcome :=
  match user with
  | none => .noContext
  | some u =>
    if u.role = "" then .noContext
    else
      match allowedRoles.mapM jsToLower with
      | none => .typeError
      | some normalizedAllowed =>
        if normalizedAllowed.contains (jsLower u.role) then .ok
        else .forbidden

/-- A task document (src/models/Task.js).  Ids and dates are kept opaque
as strings; assignedTo is nullable. -/
structure Task where
  customerId : String
  customerName : String
  title : String
  description : String
  dueDate : String
  status : String
  roleType : String
  createdBy : String
  assignedTo : Option String
  assignedName : String
deriving DecidableEq, Repr

/-- The status enum of the task schema. -/
def statusEnum : List String := ["pending", "assigned", "in progress", "completed"]

/-- The roleType enum of the task schema. -/
def roleTypeEnum : List String := ["staff", "customer"]

/-- The enum constraints of the task schema that mongoose re-validates on
every save: status and roleType must be members of their enums.  (The
required-field constraints are checked by the routes before any save the
claims are about.) -/
def validTask (t : Task) : Bool :=
  statusEnum.contains t.status && roleTypeEnum.contains t.roleType

/-- A user document as read by the create route: display names. -/
structure UserRec where
  fullName : String
  name : String
deriving DecidableEq, Repr

/-- Outcome of POST /tasks (create). -/
inductive CreateResult where
  | missingFields
  | userNotFound
  | forbidden
  | saveError
  | created (t : Task)
deriving DecidableEq, Repr

/-- The POST /tasks handler (src/routes/task.routes.js, create).  The
User.findById lookup is abstracted as findUser.  Falsy body fields are
modelled as the empty string.  customerId is req.user.id for a customer
actor and the body customerId otherwise; missing customerId, title or
dueDate is a 400; an unresolvable customerId is a 404; a role that is
neither elevated nor customer is a 403; otherwise the task is built with
status pending, roleType from the body or defaulted by actor role, and
createdBy from the actor email (lowercased by the schema) or the system
fallback. -/
def createTask (findUser : String → Option UserRec) (actor : Claims)
    (title description dueDate roleType bodyCustomerId : String) :
    CreateResult :=
  let customerId :=
    if actor.role = ROLES_CUSTOMER then actor.id else bodyCustomerId
  if customerId = "" || title = "" || dueDate = "" then .missingFields
  else
    match findUser customerId with
    | none => .userNotFound
    | some user =>
      let isManagerOrAdmin :=
        actor.role = ROLES_ADMIN || actor.role = ROLES_MANAGER
      let isCustomer := actor.role = ROLES_CUSTOMER
      if !isManagerOrAdmin && !isCustomer then .forbidden
      else
        let t : Task :=
          { customerId := customerId
            customerName := if user.fullName = "" then user.name
                            else user.fullName
            title := title
            description := description
            dueDate := dueDate
            status := "pending"
            roleType := if roleType = "" then
                          (if isCustomer then "customer" else "staff")
                        else roleType
            createdBy := jsLower (if actor.email = "" then "system@factory.com"
                          else actor.email)
            assignedTo := none
            assignedName := "" }
        if validTask t then .created t else .saveError

/-- Outcome of POST /tasks/assign. -/
inductive AssignResult where
  | noContext
  | forbidden
  | missingFields
  | notFound
  | saveError
  | assigned (t : Task)
deriving DecidableEq, Repr

/-- The POST /tasks/assign route (src/routes/task.routes.js), including
its requireRole(ROLES.ADMIN, ROLES.MANAGER) gate.  Requires truthy
requestId, staffId and staffName; finds the task; then overwrites
assignedTo, assignedName, roleType = staff and status = assigned
unconditionally and saves. -/
def assignRoute (findTask : String → Option Task) (user : Option Claims)
    (requestId staffId staffName : String) : AssignResult :=
  match requireRole [ROLES_ADMIN, ROLES_MANAGER] user with
  | .noContext => .noContext
  | .forbidden => .forbidden
  | .ok =>
    if requestId = "" || staffId = "" || staffName = "" then .missingFields
    else
      match findTask requestId with
      | none => .notFound
      | some task =>
        let t := { task with
                   assignedTo := some staffId
                   assignedName := staffName
                   roleType := "staff"
                   status := "assigned" }
        if validTask t then .assigned t else .saveError

/-- Outcome of PATCH /tasks/:id. -/
inductive UpdateResult where
  | notFound
  | forbidden
  | saveError
  | updated (t : Task)
deriving DecidableEq, Repr

/-- The PATCH /tasks/:id handler (src/routes/task.routes.js).  The route
runs only verifyToken, no role gate.  For a customer or staff actor the
task must be owned (customer: task.customerId equals the actor id; staff:
task.assignedTo, optionally chained, equals the actor id) and the
requested status must be exactly "completed"; elevated and any other
roles skip both checks.  The write is task.status = status || task.status
followed by save. -/
def updateStatusRoute (findTask : String → Option Task) (actor : Claims)
    (id status : String) : UpdateResult :=
  match findTask id with
  | none => .notFound
  | some task =>
    let isCustStaff :=
      actor.role = ROLES_CUSTOMER || actor.role = ROLES_STAFF
    let canUpdate :=
      (actor.role = ROLES_CUSTOMER && task.customerId = actor.id) ||
      (actor.role = ROLES_STAFF && task.assignedTo = some actor.id)
    if isCustStaff && !canUpdate then .forbidden
    else if isCustStaff && status != "completed" then .forbidden
    else
      let t := { task with
                 status := if status = "" then task.status else status }
      if validTask t then .updated t else .saveError

/-- Ownership of a task for the PATCH /tasks/:id permission check: a
customer owns the task when its customerId is the actor id, a staff
member owns it when its assignedTo is the actor id. -/
def ownsTask (actor : Claims) (task : Task) : Prop :=
  (actor.role = ROLES_CUSTOMER ∧ task.customerId = actor.id) ∨
  (actor.role = ROLES_STAFF ∧ task.assignedTo = some actor.id)

instance (actor : Claims) (task : Task) : Decidable (ownsTask actor task) := by
  unfold ownsTask; infer_instance

/-- The forward order of the lifecycle graph
pending → assigned → in progress → completed. -/
def statusRank (s : String) : Nat :=
  if s = "pending" then 0
  else if s = "assigned" then 1
  else if s = "in progress" then 2
  else if s = "completed" then 3
  else 0

/-- A task reachable through the task lifecycle operations: created by
POST /tasks, and transformed by successful POST /tasks/assign and
PATCH /tasks/:id operations, each acting on any store that holds the
task. -/
inductive Reachable : Task → Prop where
  | created (findUser : String → Option UserRec) (actor : Claims)
      (title description dueDate roleType bodyCustomerId : String)
      (t : Task) :
      createTask findUser actor title description dueDate roleType
        bodyCustomerId = .created t →
      Reachable t
  | assigned (findTask : String → Option Task) (user : Option Claims)
      (rid sid sname : String) (t u : Task) :
      Reachable t → findTask rid = some t →
      assignRoute findTask user rid sid sname = .assigned u →
      Reachable u
  | updated (findTask : String → Option Task) (actor : Claims)
      (id status : String) (t u : Task) :
      Reachable t → findTask id = some t →
      updateStatusRoute findTask actor id status = .updated u →
      Reachable u

/-- A task reachable through create and assign operations only (no
status write). -/
inductive ReachableCA : Task → Prop where
  | created (findUser : String → Option UserRec) (actor : Claims)
      (title description dueDate roleType bodyCustomerId : String)
      (t : Task) :
      createTask findUser actor title description dueDate roleType
        bodyCustomerId = .created t →
      ReachableCA t
  | assigned (findTask : String → Option Task) (user : Option Claims)
      (rid sid sname : String) (t u : Task) :
      ReachableCA t → findTask rid = some t →
      assignRoute findTask user rid sid sname = .assigned u →
      ReachableCA u

/-! Concrete fixtures used by counterexamples and witnesses. -/

/-- A customer actor. -/
def custClaims : Claims := { id := "c1", role := "customer", email := "carl@x" }

/-- A manager actor. -/
def mgrClaims : Claims := { id := "m1", role := "manager", email := "mgr@x" }

/-- A staff actor. -/
def staffClaims : Claims := { id := "s1", role := "staff", email := "alice@x" }

/-- A user directory resolving the customer id c1. -/
def demoDirectory : String → Option UserRec :=
  fun i => if i = "c1" then some { fullName := "Carl", name := "" } else none

/-- A one-task store holding t under the id "T". -/
def storeWith (t : Task) : String → Option Task :=
  fun i => if i = "T" then some t else none

/-- The task produced when custClaims creates with a conflicting payload
customerId "other". -/
def wTaskC3 : Task :=
  { customerId := "c1", customerName := "Carl", title := "Pickup",
    description := "", dueDate := "2025-01-01", status := "pending",
    roleType := "customer", createdBy := "carl@x", assignedTo := none,
    assignedName := "" }

/-- A schema-valid assigned task fixture. -/
def wTaskC10 : Task :=
  { customerId := "c1", customerName := "Carl", title := "Pickup",
    description := "", dueDate := "2025-01-01", status := "assigned",
    roleType := "staff", createdBy := "mgr@x", assignedTo := some "s1",
    assignedName := "Alice" }

/-- A completed customer task, used to exercise assignment of a task
already past pending. -/
def wTaskDone : Task :=
  { customerId := "c1", customerName := "Carl", title := "Pickup",
    description := "", dueDate := "2025-01-01", status := "completed",
    roleType := "customer", createdBy := "carl@x", assignedTo := none,
    assignedName := "" }

/-- A pending customer task owned by c1. -/
def wTaskPend : Task :=
  { customerId := "c1", customerName := "Carl", title := "Pickup",
    description := "", dueDate := "2025-01-01", status := "pending",
    roleType := "customer", createdBy := "carl@x", assignedTo := none,
    assignedName := "" }

/-- The staff task a manager creates for customer c1: pending and
unassigned. -/
def demoTask0 : Task :=
  { customerId := "c1", customerName := "Carl", title := "Pickup",
    description := "", dueDate := "2025-01-01", status := "pending",
    roleType := "staff", createdBy := "mgr@x", assignedTo := none,
    assignedName := "" }

/-- demoTask0 after the manager assigns staff s1. -/
def demoTask1 : Task :=
  { demoTask0 with
    assignedTo := some "s1"
    assignedName := "Alice"
    roleType := "staff"
    status := "assigned" }

/-- demoTask1 after the manager sets status completed. -/
def demoTask2 : Task :=
  { demoTask1 with status := "completed" }

/-- demoTask2 after the manager re-assigns staff s2: the status falls
back from completed to assigned. -/
def demoTask3 : Task :=
  { demoTask2 with
    assignedTo := some "s2"
    assignedName := "Bob"
    roleType := "staff"
    status := "assigned" }

/-- demoTask0 after the manager sets status completed directly: a staff
task that is completed yet was never assigned. -/
def demoTaskBad : Task :=
  { demoTask0 with status := "completed" }

theorem statusRank_le_three (s : String) : statusRank s ≤ 3 := by
  unfold statusRank
  split_ifs <;> decide

/-- C4: requireRole returns NoContext when claims are absent or carry an
empty role; with a non-empty role it returns Ok exactly when the claims
role belongs to the allow-set compared case-insensitively (both sides
lowercased), and Forbidden otherwise. -/
theorem requireRole_characterization (allowedRoles : List String)
    (hne : allowedRoles ≠ []) (user : Option Claims) :
    (user = none → requireRole allowedRoles user = .noContext) ∧
    (∀ u, user = some u → u.role = "" →
      requireRole allowedRoles user = .noContext) ∧
    (∀ u, user = some u → u.role ≠ "" →
      ((requireRole allowedRoles user = .ok ↔
        ∃ r ∈ allowedRoles, jsLower r = jsLower u.role) ∧
       (requireRole allowedRoles user = .forbidden ↔
        ¬ ∃ r ∈ allowedRoles, jsLower r = jsLower u.role))) := by
  refine ⟨?_, ?_, ?_⟩
  · intro h; subst h; rfl
  · intro u h hrole; subst h; simp [requireRole, hrole]
  · intro u h hrole
    subst h
    constructor
    · simp [requireRole, hrole]
    · simp [requireRole, hrole]

theorem requireRole_characterization_witness :
    (["admin", "manager"] : List String) ≠ [] ∧
    ((some { id := "u1", role := "Admin", email := "a@x" } :
        Option Claims) = none →
      requireRole ["admin", "manager"]
        (some { id := "u1", role := "Admin", email := "a@x" })
        = .noContext) ∧
    (∀ u, (some { id := "u1", role := "Admin", email := "a@x" } :
        Option Claims) = some u → u.role = "" →
      requireRole ["admin", "manager"]
        (some { id := "u1", role := "Admin", email := "a@x" })
        = .noContext) ∧
    (∀ u, (some { id := "u1", role := "Admin", email := "a@x" } :
        Option Claims) = some u → u.role ≠ "" →
      ((requireRole ["admin", "manager"]
          (some { id := "u1", role := "Admin", email := "a@x" }) = .ok ↔
        ∃ r ∈ (["admin", "manager"] : List String),
          jsLower r = jsLower u.role) ∧
       (requireRole ["admin", "manager"]
          (some { id := "u1", role := "Admin", email := "a@x" })
          = .forbidden ↔
        ¬ ∃ r ∈ (["admin", "manager"] : List String),
          jsLower r = jsLower u.role))) :=
  ⟨by decide,
   requireRole_characterization ["admin", "manager"] (by decide)
     (some { id := "u1", role := "Admin", email := "a@x" })⟩

/-- Every field of a created task, in particular: status pending,
assignedTo null, and customerId forced to the actor id exactly for
customer actors. -/
theorem createTask_created_shape
    (findUser : String → Option UserRec) (actor : Claims)
    (title description dueDate roleType bodyCustomerId : String) (t : Task)
    (h : createTask findUser actor title description dueDate roleType
        bodyCustomerId = .created t) :
    t.status = "pending" ∧ t.assignedTo = none ∧
    t.customerId =
      (if actor.role = ROLES_CUSTOMER then actor.id else bodyCustomerId) := by
  simp only [createTask] at h
  repeat' split at h
  all_goals try (exact (CreateResult.noConfusion h))
  all_goals (injection h with h; subst h; refine ⟨rfl, rfl, ?_⟩; simp_all)

/-- C3: a task created by a customer actor has customerId equal to the
actor id even when the payload supplies a different customerId; the
payload customerId is used exactly when the actor role is not customer. -/
theorem createTask_customer_forces_actor_id
    (findUser : String → Option UserRec) (actor : Claims)
    (title description dueDate roleType bodyCustomerId : String) (t : Task) :
    (actor.role = ROLES_CUSTOMER →
      createTask findUser actor title description dueDate roleType
        bodyCustomerId = .created t →
      t.customerId = actor.id) ∧
    (actor.role ≠ ROLES_CUSTOMER →
      createTask findUser actor title description dueDate roleType
        bodyCustomerId = .created t →
      t.customerId = bodyCustomerId) := by
  constructor
  · intro hrole h
    have hs := createTask_created_shape findUser actor title description
      dueDate roleType bodyCustomerId t h
    rw [hs.2.2, if_pos hrole]
  · intro hrole h
    have hs := createTask_created_shape findUser actor title description
      dueDate roleType bodyCustomerId t h
    rw [hs.2.2, if_neg hrole]

theorem createTask_customer_forces_actor_id_witness :
    custClaims.role = ROLES_CUSTOMER ∧
    createTask demoDirectory custClaims "Pickup" "" "2025-01-01" "" "other"
      = .created wTaskC3 ∧
    wTaskC3.customerId = custClaims.id :=
  ⟨rfl, by decide,
   (createTask_customer_forces_actor_id demoDirectory custClaims "Pickup" ""
      "2025-01-01" "" "other" wTaskC3).1 rfl (by decide)⟩

/-- C9: the role gate does not accept an array argument interchangeably
with separate string arguments: with the same authenticated admin user,
requireRole("admin", "manager") passes, while
requireRole(["admin", "manager"]) — the exact call the admin stats route
makes — throws a TypeError when it maps toLowerCase over its rest
parameter, so the two invocation styles produce different outcomes. -/
theorem requireRoleJs_array_vs_strings :
    requireRoleJs [JsArg.str "admin", JsArg.str "manager"]
      (some { id := "a1", role := "admin", email := "a@x" }) =
      JsGateOutcome.ok ∧
    requireRoleJs [JsArg.arr ["admin", "manager"]]
      (some { id := "a1", role := "admin", email := "a@x" }) =
      JsGateOutcome.typeError ∧
    JsGateOutcome.typeError ≠ JsGateOutcome.ok :=
  ⟨by decide, by decide, by decide⟩

/-- C10: for an elevated actor and an existing schema-valid task, a falsy
requested status (modelled as the empty string) passes both permission
checks, leaves the task unchanged, and the route still reports success. -/
theorem updateStatus_elevated_falsy_noop
    (findTask : String → Option Task) (u : Claims) (id : String)
    (task : Task)
    (helev : u.role = ROLES_ADMIN ∨ u.role = ROLES_MANAGER)
    (hfind : findTask id = some task) (hvalid : validTask task = true) :
    updateStatusRoute findTask u id "" = .updated task := by
  have hc : u.role ≠ ROLES_CUSTOMER ∧ u.role ≠ ROLES_STAFF := by
    rcases helev with h | h <;> rw [h] <;> exact ⟨by decide, by decide⟩
  simp [updateStatusRoute, hfind, hc.1, hc.2, hvalid]

theorem updateStatus_elevated_falsy_noop_witness :
    (mgrClaims.role = ROLES_ADMIN ∨ mgrClaims.role = ROLES_MANAGER) ∧
    (fun i => if i = "T" then some wTaskC10 else none) "T" = some wTaskC10 ∧
    validTask wTaskC10 = true ∧
    updateStatusRoute (fun i => if i = "T" then some wTaskC10 else none)
      mgrClaims "T" "" = .updated wTaskC10 :=
  ⟨Or.inr rfl, rfl, by decide,
   updateStatus_elevated_falsy_noop
     (fun i => if i = "T" then some wTaskC10 else none) mgrClaims "T"
     wTaskC10 (Or.inr rfl) rfl (by decide)⟩

/-- requireRole depends on the user only through the role string. -/
theorem requireRole_of_role (allowed : List String) (u : Claims) (r : String)
    (h : u.role = r) :
    requireRole allowed (some u) =
      (if r = "" then .noContext
       else if (allowed.map jsLower).contains (jsLower r) then .ok
       else .forbidden) := by
  simp [requireRole, h]

/-- For a customer or staff actor, the status route on an existing task
is the owner gate, the completed-only gate, then the guarded save. -/
theorem updateStatusRoute_custStaff_eq
    (findTask : String → Option Task) (actor : Claims) (id status : String)
    (task : Task) (hfind : findTask id = some task)
    (hrole : actor.role = ROLES_CUSTOMER ∨ actor.role = ROLES_STAFF) :
    updateStatusRoute findTask actor id status =
      if ownsTask actor task then
        if status = "completed" then
          if validTask { task with status := "completed" }
          then .updated { task with status := "completed" }
          else .saveError
        else .forbidden
      else .forbidden := by
  rcases hrole with h | h <;>
    by_cases h1 : task.customerId = actor.id <;>
    by_cases h2 : task.assignedTo = some actor.id <;>
    by_cases h3 : status = "completed" <;>
    simp [updateStatusRoute, hfind, ownsTask, h, h1, h2, h3,
      ROLES_ADMIN, ROLES_MANAGER, ROLES_CUSTOMER, ROLES_STAFF]

/-- C1: for a customer or staff actor and an existing task, the status
update succeeds only when the actor owns the task (customer: the task
customerId is the actor id; staff: the task assignedTo is the actor id)
and the requested status is exactly "completed"; a non-owner is answered
Forbidden whatever status was requested, and an owner requesting any
status other than "completed" is answered Forbidden as well. -/
theorem updateStatus_owner_completed_only
    (findTask : String → Option Task) (actor : Claims) (id status : String)
    (task : Task) (hfind : findTask id = some task)
    (hrole : actor.role = ROLES_CUSTOMER ∨ actor.role = ROLES_STAFF) :
    (¬ ownsTask actor task →
      updateStatusRoute findTask actor id status = .forbidden) ∧
    (ownsTask actor task → status ≠ "completed" →
      updateStatusRoute findTask actor id status = .forbidden) ∧
    (∀ u, updateStatusRoute findTask actor id status = .updated u →
      ownsTask actor task ∧ status = "completed") := by
  have hc := updateStatusRoute_custStaff_eq findTask actor id status task
    hfind hrole
  refine ⟨?_, ?_, ?_⟩
  · intro hno; rw [hc, if_neg hno]
  · intro hyes hst; rw [hc, if_pos hyes, if_neg hst]
  · intro u hup
    rw [hc] at hup
    by_cases hown : ownsTask actor task
    · by_cases hst : status = "completed"
      · exact ⟨hown, hst⟩
      · rw [if_pos hown, if_neg hst] at hup
        exact (UpdateResult.noConfusion hup)
    · rw [if_neg hown] at hup
      exact (UpdateResult.noConfusion hup)

theorem updateStatus_owner_completed_only_witness :
    storeWith wTaskC10 "T" = some wTaskC10 ∧
    (staffClaims.role = ROLES_CUSTOMER ∨ staffClaims.role = ROLES_STAFF) ∧
    (ownsTask staffClaims wTaskC10 → ("in progress" : String) ≠ "completed" →
      updateStatusRoute (storeWith wTaskC10) staffClaims "T" "in progress"
        = .forbidden) :=
  ⟨rfl, Or.inr rfl,
   (updateStatus_owner_completed_only (storeWith wTaskC10) staffClaims "T"
      "in progress" wTaskC10 rfl (Or.inr rfl)).2.1⟩

/-- C2: for an elevated actor, non-empty ids and names, and an existing
task in any state, assignment overwrites assignedTo and assignedName,
forces roleType to staff, and sets status to assigned, regardless of the
task's prior state. -/
theorem assign_overwrites_unconditionally
    (findTask : String → Option Task) (u : Claims)
    (requestId staffId staffName : String) (task : Task)
    (helev : u.role = ROLES_ADMIN ∨ u.role = ROLES_MANAGER)
    (hrid : requestId ≠ "") (hsid : staffId ≠ "") (hsname : staffName ≠ "")
    (hfind : findTask requestId = some task) :
    assignRoute findTask (some u) requestId staffId staffName =
      .assigned { task with
                  assignedTo := some staffId
                  assignedName := staffName
                  roleType := "staff"
                  status := "assigned" } := by
  have hgate : requireRole [ROLES_ADMIN, ROLES_MANAGER] (some u) = .ok := by
    rcases helev with h | h <;> rw [requireRole_of_role _ u _ h] <;> decide
  simp [assignRoute, hgate, hrid, hsid, hsname, hfind, validTask,
    statusEnum, roleTypeEnum]

theorem assign_overwrites_unconditionally_witness :
    (mgrClaims.role = ROLES_ADMIN ∨ mgrClaims.role = ROLES_MANAGER) ∧
    ("T" : String) ≠ "" ∧ ("s1" : String) ≠ "" ∧ ("Alice" : String) ≠ "" ∧
    storeWith wTaskDone "T" = some wTaskDone ∧
    wTaskDone.status = "completed" ∧
    assignRoute (storeWith wTaskDone) (some mgrClaims) "T" "s1" "Alice" =
      .assigned { wTaskDone with
                  assignedTo := some "s1"
                  assignedName := "Alice"
                  roleType := "staff"
                  status := "assigned" } :=
  ⟨Or.inr rfl, by decide, by decide, by decide, rfl, rfl,
   assign_overwrites_unconditionally (storeWith wTaskDone) mgrClaims "T"
     "s1" "Alice" wTaskDone (Or.inr rfl) (by decide) (by decide) (by decide)
     rfl⟩

/-- C5 counterexample: the header "Bearer " carries the exact
case-sensitive scheme, its extracted token is the empty string — which a
verifier that rejects every token classifies as malformed — yet the
middleware answers Missing, not Invalid, because the empty token is falsy
and is caught by the missing-token check before verification runs. -/
theorem verifyToken_empty_token_counterexample :
    jsStartsWith "Bearer " "Bearer " = true ∧
    (jsSplit ' ' "Bearer ")[1]? = some "" ∧
    (fun _ : String => (none : Option Claims)) "" = none ∧
    verifyToken (fun _ => none) "Bearer " = AuthOutcome.missing ∧
    AuthOutcome.missing ≠ AuthOutcome.invalid :=
  ⟨by decide, by decide, rfl, by decide, by decide⟩

/-- C5 (amended): a header without the exact case-sensitive scheme is
answered Missing; with the scheme, a non-empty extracted token that the
verifier rejects (malformed, signature mismatch or expiry) is answered
Invalid; with the scheme but an empty extracted token the answer is
Missing; and whenever the verifier rejects the extracted token no claim
set is ever produced. -/
theorem verifyToken_scheme_and_invalid
    (jwtVerify : String → Option Claims) (authHeader : String) :
    (jsStartsWith authHeader "Bearer " = false →
      verifyToken jwtVerify authHeader = .missing) ∧
    (∀ t, jsStartsWith authHeader "Bearer " = true →
      (jsSplit ' ' authHeader)[1]? = some t → t ≠ "" → jwtVerify t = none →
      verifyToken jwtVerify authHeader = .invalid) ∧
    (∀ t, jsStartsWith authHeader "Bearer " = true →
      (jsSplit ' ' authHeader)[1]? = some t → t = "" →
      verifyToken jwtVerify authHeader = .missing) ∧
    (∀ t c, (jsSplit ' ' authHeader)[1]? = some t → jwtVerify t = none →
      verifyToken jwtVerify authHeader ≠ .ok c) := by
  refine ⟨?_, ?_, ?_, ?_⟩
  · intro h; simp [verifyToken, h]
  · intro t hs ht hne hv; simp [verifyToken, hs, ht, hne, hv]
  · intro t hs ht he; simp [verifyToken, hs, ht, he]
  · intro t c ht hv
    by_cases hs : jsStartsWith authHeader "Bearer " = true
    · by_cases he : t = ""
      · simp [verifyToken, hs, ht, he]
      · simp [verifyToken, hs, ht, he, hv]
    · simp [verifyToken, hs]

theorem verifyToken_scheme_and_invalid_witness :
    jsStartsWith "Bearer abc" "Bearer " = true ∧
    (jsSplit ' ' "Bearer abc")[1]? = some "abc" ∧
    ("abc" : String) ≠ "" ∧
    (fun _ : String => (none : Option Claims)) "abc" = none ∧
    verifyToken (fun _ => none) "Bearer abc" = AuthOutcome.invalid :=
  ⟨by decide, by decide, by decide, rfl,
   (verifyToken_scheme_and_invalid (fun _ => none) "Bearer abc").2.1 "abc"
     (by decide) (by decide) (by decide) rfl⟩

/-- C6 counterexample: a reachable task that sits in status completed is
re-assigned by a manager, and its status falls back from completed to
assigned — an operation that moves status from a later lifecycle state to
an earlier one. -/
theorem lifecycle_regression_counterexample :
    Reachable demoTask2 ∧
    demoTask2.status = "completed" ∧
    storeWith demoTask2 "T" = some demoTask2 ∧
    assignRoute (storeWith demoTask2) (some mgrClaims) "T" "s2" "Bob" =
      .assigned demoTask3 ∧
    demoTask3.status = "assigned" ∧
    statusRank demoTask3.status < statusRank demoTask2.status := by
  refine ⟨?_, by decide, rfl, by decide, by decide, by decide⟩
  exact Reachable.updated (storeWith demoTask1) mgrClaims "T" "completed"
    demoTask1 demoTask2
    (Reachable.assigned (storeWith demoTask0) (some mgrClaims) "T" "s1"
      "Alice" demoTask0 demoTask1
      (Reachable.created demoDirectory mgrClaims "Pickup" "" "2025-01-01"
        "" "c1" demoTask0 (by decide))
      rfl (by decide))
    rfl (by decide)

/-- C6 (amended): a status update by a customer or staff actor never
regresses status — it can only set the terminal status "completed"; the
assign operation and elevated status writes are exempt, as they may move
status backwards (the counterexample re-assigns a completed task). -/
theorem updateStatus_custStaff_monotone
    (findTask : String → Option Task) (actor : Claims) (id status : String)
    (task u : Task) (hfind : findTask id = some task)
    (hrole : actor.role = ROLES_CUSTOMER ∨ actor.role = ROLES_STAFF)
    (hup : updateStatusRoute findTask actor id status = .updated u) :
    statusRank task.status ≤ statusRank u.status := by
  have hc := updateStatusRoute_custStaff_eq findTask actor id status task
    hfind hrole
  rw [hc] at hup
  by_cases hown : ownsTask actor task
  · by_cases hst : status = "completed"
    · rw [if_pos hown, if_pos hst] at hup
      by_cases hv : validTask { task with status := "completed" } = true
      · rw [if_pos hv] at hup
        injection hup with hup
        subst hup
        show statusRank task.status ≤ statusRank "completed"
        have h3 : statusRank "completed" = 3 := by decide
        rw [h3]
        exact statusRank_le_three task.status
      · rw [if_neg hv] at hup
        exact (UpdateResult.noConfusion hup)
    · rw [if_pos hown, if_neg hst] at hup
      exact (UpdateResult.noConfusion hup)
  · rw [if_neg hown] at hup
    exact (UpdateResult.noConfusion hup)

theorem updateStatus_custStaff_monotone_witness :
    storeWith wTaskC10 "T" = some wTaskC10 ∧
    (staffClaims.role = ROLES_CUSTOMER ∨ staffClaims.role = ROLES_STAFF) ∧
    updateStatusRoute (storeWith wTaskC10) staffClaims "T" "completed" =
      .updated { wTaskC10 with status := "completed" } ∧
    statusRank wTaskC10.status ≤
      statusRank ({ wTaskC10 with status := "completed" } : Task).status :=
  ⟨rfl, Or.inr rfl, by decide,
   updateStatus_custStaff_monotone (storeWith wTaskC10) staffClaims "T"
     "completed" wTaskC10 { wTaskC10 with status := "completed" } rfl
     (Or.inr rfl) (by decide)⟩

/-- A successful assignment leaves the task in status assigned with a
non-null assignedTo. -/
theorem assignRoute_assigned_shape
    (findTask : String → Option Task) (user : Option Claims)
    (rid sid sname : String) (u : Task)
    (h : assignRoute findTask user rid sid sname = .assigned u) :
    u.status = "assigned" ∧ u.assignedTo = some sid := by
  simp only [assignRoute] at h
  repeat' split at h
  all_goals try (exact (AssignResult.noConfusion h))
  all_goals (injection h with h; subst h; exact ⟨rfl, rfl⟩)

/-- C7 counterexample: a reachable task with roleType staff whose status
is completed (in the set {assigned, in progress, completed}) while its
assignedTo is still null: a manager created it and then completed it by
an elevated status write, without any assignment. -/
theorem staff_assignedTo_iff_counterexample :
    Reachable demoTaskBad ∧
    demoTaskBad.roleType = "staff" ∧
    demoTaskBad.status ∈
      (["assigned", "in progress", "completed"] : List String) ∧
    demoTaskBad.assignedTo = none := by
  refine ⟨?_, by decide, by decide, by decide⟩
  exact Reachable.updated (storeWith demoTask0) mgrClaims "T" "completed"
    demoTask0 demoTaskBad
    (Reachable.created demoDirectory mgrClaims "Pickup" "" "2025-01-01" ""
      "c1" demoTask0 (by decide))
    rfl (by decide)

/-- C7 (amended): for a task with roleType staff reachable through create
and assign operations only — that is, before any status write, which can
break the correspondence in either direction — assignedTo is non-null
exactly when status is in {assigned, in progress, completed}. -/
theorem assignedTo_iff_status_create_assign (t : Task) (h : ReachableCA t)
    (hrt : t.roleType = "staff") :
    t.assignedTo ≠ none ↔
      t.status ∈ (["assigned", "in progress", "completed"] : List String) := by
  clear hrt
  induction h with
  | created f a ti de du rt b t hc =>
    have hs := createTask_created_shape f a ti de du rt b t hc
    rw [hs.1, hs.2.1]
    simp
  | assigned f u rid sid sname t t' ht hfind ha ih =>
    have hs := assignRoute_assigned_shape f u rid sid sname t' ha
    rw [hs.1, hs.2]
    simp

theorem assignedTo_iff_status_create_assign_witness :
    ReachableCA demoTask1 ∧ demoTask1.roleType = "staff" ∧
    (demoTask1.assignedTo ≠ none ↔
      demoTask1.status ∈
        (["assigned", "in progress", "completed"] : List String)) := by
  have h : ReachableCA demoTask1 :=
    ReachableCA.assigned (storeWith demoTask0) (some mgrClaims) "T" "s1"
      "Alice" demoTask0 demoTask1
      (ReachableCA.created demoDirectory mgrClaims "Pickup" "" "2025-01-01"
        "" "c1" demoTask0 (by decide))
      rfl (by decide)
  exact ⟨h, by decide,
    assignedTo_iff_status_create_assign demoTask1 h (by decide)⟩

/-- C8: a successful status update changes only the status field: every
other field of the task — customerId, customerName, title, description,
dueDate, roleType, createdBy, assignedTo, assignedName — keeps the value
it had before the call. -/
theorem updateStatus_frame_only_status
    (findTask : String → Option Task) (actor : Claims) (id status : String)
    (task u : Task) (hfind : findTask id = some task)
    (hup : updateStatusRoute findTask actor id status = .updated u) :
    u.customerId = task.customerId ∧ u.customerName = task.customerName ∧
    u.title = task.title ∧ u.description = task.description ∧
    u.dueDate = task.dueDate ∧ u.roleType = task.roleType ∧
    u.createdBy = task.createdBy ∧ u.assignedTo = task.assignedTo ∧
    u.assignedName = task.assignedName := by
  simp only [updateStatusRoute, hfind] at hup
  repeat' split at hup
  all_goals try (exact (UpdateResult.noConfusion hup))
  all_goals injection hup with hup
  all_goals subst hup
  all_goals exact ⟨rfl, rfl, rfl, rfl, rfl, rfl, rfl, rfl, rfl⟩

theorem updateStatus_frame_only_status_witness :
    storeWith wTaskPend "T" = some wTaskPend ∧
    updateStatusRoute (storeWith wTaskPend) custClaims "T" "completed" =
      .updated wTaskDone ∧
    (wTaskDone.customerId = wTaskPend.customerId ∧
     wTaskDone.customerName = wTaskPend.customerName ∧
     wTaskDone.title = wTaskPend.title ∧
     wTaskDone.description = wTaskPend.description ∧
     wTaskDone.dueDate = wTaskPend.dueDate ∧
     wTaskDone.roleType = wTaskPend.roleType ∧
     wTaskDone.createdBy = wTaskPend.createdBy ∧
     wTaskDone.assignedTo = wTaskPend.assignedTo ∧
     wTaskDone.assignedName = wTaskPend.assignedName) :=
  ⟨rfl, by decide,
   updateStatus_frame_only_status (storeWith wTaskPend) custClaims "T"
     "completed" wTaskPend wTaskDone rfl (by decide)⟩

end Rabwah
